import Mathlib

/-!
Verification of the data-acquisition-and-fallback pipeline of the
`chargeoff` dashboard (`src/app.py`): the remote FRED fetcher
(`fetch_fred_data_api`), the synthetic generator (`create_sample_data`),
and the orchestrating script body that validates the date range, selects
the data source, merges columns and decides what is rendered.

The embedding is shallow: machine floats are modelled by rationals, the
global numpy random generator by an explicit RNG implementation threaded
through the generator, HTTP responses by an inductive environment value,
and pandas DataFrames are date-indexed lists of named columns.
-/

set_option maxRecDepth 4000

namespace ChargeOff

/-- A calendar date, as used by `datetime.date` / pandas timestamps. -/
structure Date where
  year : Nat
  month : Nat
  day : Nat
deriving DecidableEq, Repr

/-- Python date ordering: lexicographic on (year, month, day). -/
def Date.le (a b : Date) : Bool :=
  if a.year ≠ b.year then a.year < b.year
  else if a.month ≠ b.month then a.month < b.month
  else a.day ≤ b.day

/-- Gregorian leap-year rule, as implemented by the `datetime`/pandas calendars. -/
def isLeap (y : Nat) : Bool :=
  (y % 4 = 0 && y % 100 ≠ 0) || y % 400 = 0

/-- Number of days in a month of a given year. -/
def daysInMonth (y m : Nat) : Nat :=
  if m = 2 then (if isLeap y then 29 else 28)
  else if m = 4 ∨ m = 6 ∨ m = 9 ∨ m = 11 then 30
  else 31

/-- Split a character list on a separator character; like `str.split(sep)`
in Python, adjacent separators and edge separators yield empty fields. -/
def splitOnChar (sep : Char) : List Char → List (List Char)
  | [] => [[]]
  | c :: cs =>
    if c = sep then [] :: splitOnChar sep cs
    else
      match splitOnChar sep cs with
      | r :: rs => (c :: r) :: rs
      | [] => [[c]]

/-- Parse a run of decimal digits; fails on a non-digit, succeeds with 0 on `[]`
(callers guard against the empty case). -/
def parseDigits (cs : List Char) : Option Nat :=
  cs.foldlM (fun acc c => if c.isDigit then some (acc * 10 + (c.toNat - 48)) else none) 0

/-- `pd.to_datetime` on a `YYYY-MM-DD` string: three dash-separated numeric
fields forming a valid calendar date; anything else raises (modelled as `none`). -/
def parseDate (s : String) : Option Date :=
  match splitOnChar ('-') s.toList with
  | [y, m, d] =>
    if y.isEmpty ∨ m.isEmpty ∨ d.isEmpty then none
    else
      match parseDigits y, parseDigits m, parseDigits d with
      | some yn, some mn, some dn =>
        if 1 ≤ mn ∧ mn ≤ 12 ∧ 1 ≤ dn ∧ dn ≤ daysInMonth yn mn then
          some ⟨yn, mn, dn⟩
        else none
      | _, _, _ => none
  | _ => none

/-- Unsigned numeric token: digits with at most one decimal point and at least
one digit overall. -/
def parseUnsigned (cs : List Char) : Option Rat :=
  match splitOnChar ('.') cs with
  | [ip] =>
    if ip.isEmpty then none
    else (parseDigits ip).map (fun n => (n : Rat))
  | [ip, fp] =>
    if ip.isEmpty ∧ fp.isEmpty then none
    else
      match parseDigits ip, parseDigits fp with
      | some i, some f => some ((i : Rat) + (f : Rat) / (10 ^ fp.length))
      | _, _ => none
  | _ => none

/-- `pd.to_numeric(v, errors='coerce')` on one string token: an optional minus
sign followed by an unsigned numeric token; any other token (such as the FRED
missing marker `"."`) coerces to NaN, modelled `none`. -/
def parseValue (s : String) : Option Rat :=
  match s.toList with
  | c :: rest =>
    if c = '-' then (parseUnsigned rest).map (fun v => -v)
    else parseUnsigned (c :: rest)
  | [] => none

/-- One record of the FRED `observations` JSON list. -/
structure Obs where
  date : String
  value : String
deriving DecidableEq, Repr

/-- The outcome of `requests.get` plus JSON decoding, as seen by
`fetch_fred_data_api`: either some exception was raised during the call, or a
response arrived with a status code and a JSON body that may or may not carry
an `observations` list. -/
inductive HttpEnv where
  | exn : HttpEnv
  | resp (status : Nat) (observations : Option (List Obs)) : HttpEnv
deriving DecidableEq, Repr

/-- Parse the observation records: `pd.to_datetime` over the `date` column
(a failure there raises, propagating to the `except` handler) and
`pd.to_numeric(..., errors='coerce')` over the `value` column. -/
def parseObservations : List Obs → Option (List (Date × Option Rat))
  | [] => some []
  | o :: os =>
    match parseDate o.date, parseObservations os with
    | some d, some rest => some ((d, parseValue o.value) :: rest)
    | _, _ => none

/-- `fetch_fred_data_api` (src/app.py lines 27-58), with the network
interaction abstracted into the `HttpEnv` argument.  Returns the date-indexed
`value` column as a list of rows; every failure path yields the empty frame. -/
def fetch_fred_data_api (env : HttpEnv) : List (Date × Option Rat) :=
  match env with
  | .exn => []
  | .resp status observations =>
    if status = 200 then
      match observations with
      | some obs =>
        match parseObservations obs with
        | some rows => rows
        | none => []
      | none => []
    else []

/-- Unfolding lemma for `parseObservations` on a successful parse: the row list
is in lockstep with the observation list, each row holding the parsed date and
the coerced (possibly missing) numeric value. -/
theorem parseObservations_sound (obs : List Obs) :
    ∀ rows, parseObservations obs = some rows →
      rows.length = obs.length ∧
      ∀ p ∈ obs.zip rows, parseDate p.1.date = some p.2.1 ∧ p.2.2 = parseValue p.1.value := by
  induction obs with
  | nil =>
    intro rows h
    simp [parseObservations] at h
    simp [← h]
  | cons o os ih =>
    intro rows h
    simp only [parseObservations] at h
    rcases hd : parseDate o.date with _ | d <;> rw [hd] at h
    · exact absurd h (by simp)
    rcases hrs : parseObservations os with _ | rs <;> rw [hrs] at h
    · exact absurd h (by simp)
    simp only [Option.some.injEq] at h
    subst h
    obtain ⟨hlen, htail⟩ := ih rs hrs
    refine ⟨by simp [hlen], ?_⟩
    intro p hp
    rcases List.mem_cons.mp (by simpa using hp) with h1 | h2
    · subst h1
      exact ⟨by simp [hd], rfl⟩
    · exact htail p h2

/-- C1: on any exception during the call, or any non-200 status, the fetcher
returns the empty frame (no rows, no column) instead of propagating a failure. -/
theorem fetch_soft_failure (env : HttpEnv)
    (h : env = HttpEnv.exn ∨ ∃ status obs, env = HttpEnv.resp status obs ∧ status ≠ 200) :
    fetch_fred_data_api env = [] := by
  rcases h with rfl | ⟨s, o, rfl, hs⟩
  · rfl
  · simp [fetch_fred_data_api, hs]

/-- Witness for C1 at the mocked non-200 response of the spec. -/
theorem fetch_soft_failure_witness :
    fetch_fred_data_api (.resp 404 (some [⟨"2020-01-01", "3.5"⟩])) = [] :=
  fetch_soft_failure _ (Or.inr ⟨404, _, rfl, by decide⟩)

/-- C2: on a 200 response carrying an `observations` list whose dates all
parse, the fetcher returns one row per observation, in order, pairing the
parsed calendar date with `pd.to_numeric(..., errors='coerce')` of the value
token — an unparsable token is kept as a missing value, not dropped. -/
theorem fetch_parses_observations (obs : List Obs) (rows : List (Date × Option Rat))
    (h : parseObservations obs = some rows) :
    fetch_fred_data_api (.resp 200 (some obs)) = rows ∧
    rows.length = obs.length ∧
    ∀ p ∈ obs.zip rows, parseDate p.1.date = some p.2.1 ∧ p.2.2 = parseValue p.1.value := by
  refine ⟨by simp [fetch_fred_data_api, h], parseObservations_sound obs rows h⟩

/-- Witness for C2 at the spec's mocked body: two dated rows, the first 3.5,
the second missing. -/
theorem fetch_parses_observations_witness :
    fetch_fred_data_api (.resp 200 (some [⟨"2020-01-01", "3.5"⟩, ⟨"2020-02-01", "."⟩]))
      = [(⟨2020, 1, 1⟩, some ((7 : Rat) / 2)), (⟨2020, 2, 1⟩, none)] :=
  (fetch_parses_observations _ _ (by with_unfolding_all decide)).1

/-- C10: a 200 response whose JSON body has no `observations` key also yields
the empty frame, the same soft failure as a non-success status. -/
theorem fetch_no_observations_key_empty :
    fetch_fred_data_api (.resp 200 none) = [] := rfl

/-! ## DataFrames and the synthetic generator -/

/-- A pandas DataFrame as the program uses it: a date index plus named
columns of (possibly missing) numeric values, each aligned with the index. -/
structure DataFrame where
  index : List Date
  cols : List (String × List (Option Rat))
deriving DecidableEq, Repr

/-- `pd.DataFrame()`. -/
def DataFrame.emptyFrame : DataFrame := ⟨[], []⟩

/-- `df.empty`: true when either axis has length zero. -/
def DataFrame.isEmpty (df : DataFrame) : Bool :=
  df.index.isEmpty || df.cols.isEmpty

/-- The values of the named column (the first column carrying that label). -/
def DataFrame.col (df : DataFrame) (name : String) : List (Option Rat) :=
  match df.cols.find? (fun c => c.1 == name) with
  | some c => c.2
  | none => []

/-- Months since year 0, the position of a date's month. -/
def monthIndex (d : Date) : Nat := d.year * 12 + (d.month - 1)

/-- The month-end date of the month with the given index. -/
def monthEndDate (mi : Nat) : Date :=
  ⟨mi / 12, mi % 12 + 1, daysInMonth (mi / 12) (mi % 12 + 1)⟩

/-- `pd.date_range(start, end, freq='M')`: the month-end dates lying within
the inclusive range. -/
def date_range_M (s e : Date) : List Date :=
  ((List.range (monthIndex e + 1 - monthIndex s)).map
    (fun i => monthEndDate (monthIndex s + i))).filter
    (fun d => Date.le s d && Date.le d e)

/-- An implementation of the global numpy pseudo-random generator:
`seedFn` is `np.random.seed`, mapping a seed value to a fresh generator
state, and `stdNormal` draws one standard-normal variate together with the
next state.  The generator's claims hold for every implementation, so the
concrete numeric stream (MT19937 plus the normal transform, a floating-point
computation) is left abstract as a parameter. -/
structure RNGImpl where
  seedFn : Nat → Nat
  stdNormal : Nat → Rat × Nat

/-- `np.random.normal(mu, sigma, n)` drawn from a state: `n` scaled draws in
order, returning the advanced state. -/
def drawNormals (impl : RNGImpl) (mu sigma : Rat) : Nat → Nat → List Rat × Nat
  | 0, st => ([], st)
  | n + 1, st =>
    let (v, st1) := impl.stdNormal st
    let (rest, st2) := drawNormals impl mu sigma n st1
    ((mu + sigma * v) :: rest, st2)

/-- Display name of the delinquency-rate column. -/
def DELINQ_NAME : String := "Taxa de Inadimplência (%)"

/-- Display name of the charge-off-rate column. -/
def CHARGEOFF_NAME : String := "Taxa de Baixa por Prejuízo (%)"

/-- The crisis-peak adjustment applied to one delinquency value
(src/app.py lines 96-102). -/
def stressDelinq (d : Date) (v : Rat) : Rat :=
  if 2008 ≤ d.year ∧ d.year ≤ 2010 then v + 2.5
  else if d.year = 2020 then v + 1.5
  else v

/-- The crisis-peak adjustment applied to one charge-off value. -/
def stressChargeoff (d : Date) (v : Rat) : Rat :=
  if 2008 ≤ d.year ∧ d.year ≤ 2010 then v + 3.0
  else if d.year = 2020 then v + 2.0
  else v

/-- The index built by `create_sample_data`. -/
def sampleDates (s e : Date) : List Date := date_range_M s e

/-- The unadjusted delinquency array: `3.5 + np.random.normal(0, 1.5, n)`,
drawn immediately after `np.random.seed(42)`. -/
def sampleDelinqRaw (impl : RNGImpl) (s e : Date) : List Rat :=
  ((drawNormals impl 0 1.5 (sampleDates s e).length (impl.seedFn 42)).1).map
    (fun v => 3.5 + v)

/-- The unadjusted charge-off array: `4.2 + np.random.normal(0, 1.8, n)`,
drawn from the state left by the delinquency draws. -/
def sampleChargeoffRaw (impl : RNGImpl) (s e : Date) : List Rat :=
  let n := (sampleDates s e).length
  let st2 := (drawNormals impl 0 1.5 n (impl.seedFn 42)).2
  ((drawNormals impl 0 1.8 n st2).1).map (fun v => 4.2 + v)

/-- `create_sample_data` (src/app.py lines 79-113).  `rngState` is the global
numpy generator state on entry; `np.random.seed(42)` replaces it on every
call, so the output never depends on it. -/
def create_sample_data (impl : RNGImpl) (rngState : Nat) (start_date end_date : Date) :
    DataFrame :=
  let dates := sampleDates start_date end_date
  let delinquency_rates :=
    List.zipWith stressDelinq dates (sampleDelinqRaw impl start_date end_date)
  let chargeoff_rates :=
    List.zipWith stressChargeoff dates (sampleChargeoffRaw impl start_date end_date)
  let delinquency_rates := delinquency_rates.map (fun v => max v 0.5)
  let chargeoff_rates := chargeoff_rates.map (fun v => max v 0.5)
  { index := dates,
    cols := [(DELINQ_NAME, delinquency_rates.map some),
             (CHARGEOFF_NAME, chargeoff_rates.map some)] }

/-- The delinquency column of the generated frame, written in terms of the
generation stages. -/
theorem create_sample_data_colA (impl : RNGImpl) (st : Nat) (s e : Date) :
    (create_sample_data impl st s e).col DELINQ_NAME =
      ((List.zipWith stressDelinq (sampleDates s e) (sampleDelinqRaw impl s e)).map
        (fun v => max v 0.5)).map some := by
  simp [create_sample_data, DataFrame.col, List.find?]

/-- The charge-off column of the generated frame, written in terms of the
generation stages. -/
theorem create_sample_data_colB (impl : RNGImpl) (st : Nat) (s e : Date) :
    (create_sample_data impl st s e).col CHARGEOFF_NAME =
      ((List.zipWith stressChargeoff (sampleDates s e) (sampleChargeoffRaw impl s e)).map
        (fun v => max v 0.5)).map some := by
  simp [create_sample_data, DataFrame.col, List.find?, DELINQ_NAME, CHARGEOFF_NAME]

/-- C6: for any RNG implementation and any two incoming global generator
states, two calls of the synthetic generator on the same date range return
identical frames — `np.random.seed(42)` replaces the state on every call, so
the prior state is irrelevant. -/
theorem create_sample_data_deterministic (impl : RNGImpl) (st1 st2 : Nat) (s e : Date) :
    create_sample_data impl st1 s e = create_sample_data impl st2 s e := rfl

/-- C7: every value present in any column of the generated frame is at least
0.5, for every RNG implementation, incoming state and date range — the floor
is taken with `np.maximum(…, 0.5)` after noise and stress adjustments. -/
theorem create_sample_data_floor (impl : RNGImpl) (st : Nat) (s e : Date)
    (c : String × List (Option Rat)) (hc : c ∈ (create_sample_data impl st s e).cols)
    (ov : Option Rat) (hov : ov ∈ c.2) (x : Rat) (hx : ov = some x) :
    (0.5 : Rat) ≤ x := by
  simp only [create_sample_data, List.mem_cons, List.not_mem_nil, or_false] at hc
  rcases hc with rfl | rfl <;>
  · simp only [List.mem_map] at hov
    obtain ⟨v, ⟨w, hw, rfl⟩, rfl⟩ := hov
    obtain rfl : max w 0.5 = x := by simpa using hx
    exact le_max_right w 0.5

/-- Witness for C7 on a one-month range with a trivial RNG implementation. -/
theorem create_sample_data_floor_witness : (0.5 : Rat) ≤ 5 :=
  create_sample_data_floor ⟨fun n => n, fun st => (0, st + 1)⟩ 0 ⟨2020, 1, 1⟩ ⟨2020, 1, 31⟩
    (DELINQ_NAME, [some 5]) (by with_unfolding_all decide)
    (some 5) (by with_unfolding_all decide) 5 rfl

/-- C8: at every row of the generated frame, relative to the unadjusted
base-plus-noise arrays, a date with year in [2008, 2010] has 2.5 added to the
delinquency value and 3.0 to the charge-off value, a date with year 2020 has
1.5 and 2.0 added, and a date in neither window is unadjusted; the 0.5 floor
is applied after the adjustment. -/
theorem create_sample_data_stress (impl : RNGImpl) (st : Nat) (s e : Date)
    (i : Nat) (d : Date) (a b : Rat)
    (hd : (sampleDates s e).get? i = some d)
    (ha : (sampleDelinqRaw impl s e).get? i = some a)
    (hb : (sampleChargeoffRaw impl s e).get? i = some b) :
    ((2008 ≤ d.year ∧ d.year ≤ 2010) →
      ((create_sample_data impl st s e).col DELINQ_NAME).get? i
          = some (some (max (a + 2.5) 0.5)) ∧
      ((create_sample_data impl st s e).col CHARGEOFF_NAME).get? i
          = some (some (max (b + 3.0) 0.5))) ∧
    (¬(2008 ≤ d.year ∧ d.year ≤ 2010) → d.year = 2020 →
      ((create_sample_data impl st s e).col DELINQ_NAME).get? i
          = some (some (max (a + 1.5) 0.5)) ∧
      ((create_sample_data impl st s e).col CHARGEOFF_NAME).get? i
          = some (some (max (b + 2.0) 0.5))) ∧
    (¬(2008 ≤ d.year ∧ d.year ≤ 2010) → d.year ≠ 2020 →
      ((create_sample_data impl st s e).col DELINQ_NAME).get? i
          = some (some (max a 0.5)) ∧
      ((create_sample_data impl st s e).col CHARGEOFF_NAME).get? i
          = some (some (max b 0.5))) := by
  have hA := create_sample_data_colA impl st s e
  have hB := create_sample_data_colB impl st s e
  refine ⟨fun h => ?_, fun h1 h2 => ?_, fun h1 h2 => ?_⟩ <;>
    rw [hA, hB] <;>
    rw [List.get?_map, List.get?_map, List.get?_zipWith', hd, ha,
        List.get?_map, List.get?_map, List.get?_zipWith', hd, hb]
  · simp [stressDelinq, stressChargeoff, h]
  · simp [stressDelinq, stressChargeoff, h1, h2]
  · simp [stressDelinq, stressChargeoff, h1, h2]

/-- Witness for C8 on a one-month range inside the 2008-2010 stress window. -/
theorem create_sample_data_stress_witness :
    ((create_sample_data ⟨fun n => n, fun st => (0, st + 1)⟩ 0
        ⟨2009, 1, 1⟩ ⟨2009, 1, 31⟩).col DELINQ_NAME).get? 0
      = some (some (max ((3.5 : Rat) + 2.5) 0.5)) :=
  ((create_sample_data_stress ⟨fun n => n, fun st => (0, st + 1)⟩ 0
      ⟨2009, 1, 1⟩ ⟨2009, 1, 31⟩ 0 ⟨2009, 1, 31⟩ 3.5 4.2
      (by with_unfolding_all decide) (by with_unfolding_all decide)
      (by with_unfolding_all decide)).1 (by decide)).1

/-! ## Merge and orchestration -/

/-- The relation pandas sorts a date index by. -/
def dateOrder : Date → Date → Prop := fun a b => Date.le a b = true

instance : DecidableRel dateOrder := fun a b => instDecidableEqBool (Date.le a b) true

/-- Sort a date index ascending, as pandas does when unioning indexes. -/
def sortDates (l : List Date) : List Date := l.insertionSort dateOrder

/-- The value a date-indexed series holds at a date: the stored (possibly
missing) value when the date is in the index, and missing otherwise. -/
def lookupDate (rows : List (Date × Option Rat)) (d : Date) : Option Rat :=
  match rows.find? (fun r => r.1 == d) with
  | some r => r.2
  | none => none

/-- `pd.DataFrame(all_series)` on a dict of date-indexed series: the index is
the sorted union of the series' dates (an outer join), and each column holds
its series' value at each index date, missing where the series has no row. -/
def mergeSeries (series : List (String × List (Date × Option Rat))) : DataFrame :=
  let idx := sortDates ((series.map (fun p => p.2.map Prod.fst)).flatten.dedup)
  ⟨idx, series.map (fun p => (p.1, idx.map (lookupDate p.2)))⟩

/-- The two sidebar data-source choices. -/
inductive DataSource where
  | fredAPI
  | simulated
deriving DecidableEq, Repr

/-- Python truthiness of the key: `if fred_api_key:` is false for `None` and
for the empty string. -/
def keyTruthy : Option String → Bool
  | some s => !s.isEmpty
  | none => false

/-- The FRED series table (src/app.py lines 118-121), in insertion order. -/
def SERIES_IDS : List (String × String) :=
  [(DELINQ_NAME, "DRCCLACBS"), (CHARGEOFF_NAME, "CORCCACBS")]

/-- The user-visible effects of one interaction: which messages are shown,
which display blocks are rendered, which series ids were fetched remotely,
whether the synthetic generator ran, and the resulting table. -/
structure RenderOutput where
  invalidRangeError : Bool
  missingKeyWarning : Bool
  noDataWarning : Bool
  chartRendered : Bool
  recentTableRendered : Bool
  statsRendered : Bool
  fetchedSeries : List String
  sampleCalled : Bool
  data : DataFrame
deriving DecidableEq, Repr

/-- The display half of the script (src/app.py lines 217-285): with a
non-empty table it renders the chart, the recent-data table and the
statistics; with an empty table it only shows the could-not-load warning. -/
def displayData (data : DataFrame) (warnedKey : Bool) (fetched : List String)
    (sampleRan : Bool) : RenderOutput :=
  if data.isEmpty then
    { invalidRangeError := false, missingKeyWarning := warnedKey, noDataWarning := true,
      chartRendered := false, recentTableRendered := false, statsRendered := false,
      fetchedSeries := fetched, sampleCalled := sampleRan, data := data }
  else
    { invalidRangeError := false, missingKeyWarning := warnedKey, noDataWarning := false,
      chartRendered := true, recentTableRendered := true, statsRendered := true,
      fetchedSeries := fetched, sampleCalled := sampleRan, data := data }

/-- The orchestrating script body (src/app.py lines 191-287): validate the
range, pick the source, fetch or generate, merge, and display.  The HTTP
environment maps each series id to the outcome of its request. -/
def runApp (start_date end_date : Date) (fred_api_key : Option String)
    (data_source : DataSource) (http : String → HttpEnv) (impl : RNGImpl)
    (rngState : Nat) : RenderOutput :=
  if Date.le start_date end_date then
    match data_source with
    | .fredAPI =>
      if keyTruthy fred_api_key then
        let fetched := SERIES_IDS.map (fun p => (p.1, fetch_fred_data_api (http p.2)))
        let all_series := fetched.filter (fun p => !p.2.isEmpty)
        let data := if all_series.isEmpty then DataFrame.emptyFrame else mergeSeries all_series
        displayData data false (SERIES_IDS.map Prod.snd) false
      else
        displayData (create_sample_data impl rngState start_date end_date) true [] true
    | .simulated =>
      displayData (create_sample_data impl rngState start_date end_date) false [] true
  else
    { invalidRangeError := true, missingKeyWarning := false, noDataWarning := false,
      chartRendered := false, recentTableRendered := false, statsRendered := false,
      fetchedSeries := [], sampleCalled := false, data := DataFrame.emptyFrame }

end ChargeOff
namespace ChargeOff

theorem mem_zip_map {α β : Type} (f : α → β) (l : List α) (x : α) (h : x ∈ l) :
    (x, f x) ∈ l.zip (l.map f) := by
  induction l with
  | nil => cases h
  | cons y ys ih =>
    rcases List.mem_cons.mp h with rfl | h2
    · exact List.mem_cons_self _ _
    · exact List.mem_cons_of_mem _ (ih h2)

theorem lookupDate_not_mem (rows : List (Date × Option Rat)) (d : Date)
    (h : d ∉ rows.map Prod.fst) : lookupDate rows d = none := by
  have hf : rows.find? (fun r => r.1 == d) = none := by
    refine List.find?_eq_none.2 (fun r hr => ?_)
    simp only [beq_iff_eq]
    exact fun he => h (he ▸ List.mem_map_of_mem Prod.fst hr)
  simp [lookupDate, hf]

theorem mergeSeries_outer_join (na nb : String) (a b : List (Date × Option Rat))
    (hnames : na ≠ nb) :
    (∀ d, d ∈ (mergeSeries [(na, a), (nb, b)]).index ↔
        (d ∈ a.map Prod.fst ∨ d ∈ b.map Prod.fst)) ∧
    (∀ d, d ∈ a.map Prod.fst → d ∉ b.map Prod.fst →
        (d, (none : Option Rat)) ∈
          (mergeSeries [(na, a), (nb, b)]).index.zip
            ((mergeSeries [(na, a), (nb, b)]).col nb)) ∧
    (∀ d, d ∈ b.map Prod.fst → d ∉ a.map Prod.fst →
        (d, (none : Option Rat)) ∈
          (mergeSeries [(na, a), (nb, b)]).index.zip
            ((mergeSeries [(na, a), (nb, b)]).col na)) := by
  have hidx : ∀ d, d ∈ (mergeSeries [(na, a), (nb, b)]).index ↔
      (d ∈ a.map Prod.fst ∨ d ∈ b.map Prod.fst) := by
    intro d
    simp [mergeSeries, sortDates, List.mem_insertionSort, List.mem_dedup]
  have hcola : (mergeSeries [(na, a), (nb, b)]).col na =
      (mergeSeries [(na, a), (nb, b)]).index.map (lookupDate a) := by
    simp [mergeSeries, DataFrame.col, List.find?]
  have hcolb : (mergeSeries [(na, a), (nb, b)]).col nb =
      (mergeSeries [(na, a), (nb, b)]).index.map (lookupDate b) := by
    have hbeq : (na == nb) = false := by simp [hnames]
    simp [mergeSeries, DataFrame.col, List.find?, hbeq]
  refine ⟨hidx, fun d hda hdb => ?_, fun d hdb hda => ?_⟩
  · rw [hcolb]
    have := mem_zip_map (lookupDate b) _ d ((hidx d).2 (Or.inl hda))
    rwa [lookupDate_not_mem b d hdb] at this
  · rw [hcola]
    have := mem_zip_map (lookupDate a) _ d ((hidx d).2 (Or.inr hdb))
    rwa [lookupDate_not_mem a d hda] at this

end ChargeOff
namespace ChargeOff

theorem mergeSeries_outer_join_witness :
    ((⟨2020, 1, 31⟩ : Date), (none : Option Rat)) ∈
      (mergeSeries [("A", [(⟨2020, 1, 31⟩, some 1), (⟨2020, 2, 29⟩, some 2)]),
                    ("B", [(⟨2020, 2, 29⟩, some 3), (⟨2020, 3, 31⟩, some 4)])]).index.zip
        ((mergeSeries [("A", [(⟨2020, 1, 31⟩, some 1), (⟨2020, 2, 29⟩, some 2)]),
                       ("B", [(⟨2020, 2, 29⟩, some 3), (⟨2020, 3, 31⟩, some 4)])]).col "B") :=
  (mergeSeries_outer_join "A" "B"
      [(⟨2020, 1, 31⟩, some 1), (⟨2020, 2, 29⟩, some 2)]
      [(⟨2020, 2, 29⟩, some 3), (⟨2020, 3, 31⟩, some 4)]
      (by decide)).2.1 ⟨2020, 1, 31⟩ (by decide) (by decide)

theorem mergeSeries_names (series : List (String × List (Date × Option Rat))) :
    (mergeSeries series).cols.map Prod.fst = series.map Prod.fst := by
  simp [mergeSeries]

@[simp] theorem displayData_invalidRangeError (d : DataFrame) (w : Bool)
    (f : List String) (sc : Bool) : (displayData d w f sc).invalidRangeError = false := by
  unfold displayData; split <;> rfl

@[simp] theorem displayData_missingKeyWarning (d : DataFrame) (w : Bool)
    (f : List String) (sc : Bool) : (displayData d w f sc).missingKeyWarning = w := by
  unfold displayData; split <;> rfl

@[simp] theorem displayData_noDataWarning (d : DataFrame) (w : Bool)
    (f : List String) (sc : Bool) : (displayData d w f sc).noDataWarning = d.isEmpty := by
  unfold displayData; split <;> simp_all

@[simp] theorem displayData_chartRendered (d : DataFrame) (w : Bool)
    (f : List String) (sc : Bool) : (displayData d w f sc).chartRendered = !d.isEmpty := by
  unfold displayData; split <;> simp_all

@[simp] theorem displayData_recentTableRendered (d : DataFrame) (w : Bool)
    (f : List String) (sc : Bool) : (displayData d w f sc).recentTableRendered = !d.isEmpty := by
  unfold displayData; split <;> simp_all

@[simp] theorem displayData_statsRendered (d : DataFrame) (w : Bool)
    (f : List String) (sc : Bool) : (displayData d w f sc).statsRendered = !d.isEmpty := by
  unfold displayData; split <;> simp_all

@[simp] theorem displayData_fetchedSeries (d : DataFrame) (w : Bool)
    (f : List String) (sc : Bool) : (displayData d w f sc).fetchedSeries = f := by
  unfold displayData; split <;> rfl

@[simp] theorem displayData_sampleCalled (d : DataFrame) (w : Bool)
    (f : List String) (sc : Bool) : (displayData d w f sc).sampleCalled = sc := by
  unfold displayData; split <;> rfl

@[simp] theorem displayData_data (d : DataFrame) (w : Bool)
    (f : List String) (sc : Bool) : (displayData d w f sc).data = d := by
  unfold displayData; split <;> rfl

theorem remote_mode_key_policy (s e : Date) (key : Option String)
    (http : String → HttpEnv) (impl : RNGImpl) (st : Nat)
    (hrange : Date.le s e = true) :
    (keyTruthy key = false →
      (runApp s e key .fredAPI http impl st).missingKeyWarning = true ∧
      (runApp s e key .fredAPI http impl st).fetchedSeries = [] ∧
      (runApp s e key .fredAPI http impl st).sampleCalled = true ∧
      (runApp s e key .fredAPI http impl st).data = create_sample_data impl st s e) ∧
    (keyTruthy key = true →
      (runApp s e key .fredAPI http impl st).missingKeyWarning = false ∧
      (runApp s e key .fredAPI http impl st).sampleCalled = false ∧
      (runApp s e key .fredAPI http impl st).fetchedSeries = SERIES_IDS.map Prod.snd ∧
      (runApp s e key .fredAPI http impl st).data.cols.map Prod.fst =
        ((SERIES_IDS.map (fun p => (p.1, fetch_fred_data_api (http p.2)))).filter
          (fun p => !p.2.isEmpty)).map Prod.fst) := by
  constructor
  · intro hk
    simp only [runApp, hrange, if_true, hk, Bool.false_eq_true, if_false]
    simp
  · intro hk
    simp only [runApp, hrange, if_true, hk, if_true]
    by_cases hall : ((SERIES_IDS.map (fun p => (p.1, fetch_fred_data_api (http p.2)))).filter
        (fun p => !p.2.isEmpty)).isEmpty = true
    · have hnil := List.isEmpty_iff.mp hall
      simp only [hall, if_true]
      simp [DataFrame.emptyFrame, hnil]
    · simp only [hall, Bool.false_eq_true, if_false]
      simp_all [mergeSeries_names, hall]

end ChargeOff
namespace ChargeOff

theorem remote_mode_key_policy_witness :
    (runApp ⟨2020, 1, 1⟩ ⟨2020, 3, 31⟩ none .fredAPI (fun _ => .exn)
        ⟨fun n => n, fun st => (0, st + 1)⟩ 0).missingKeyWarning = true ∧
    (runApp ⟨2020, 1, 1⟩ ⟨2020, 3, 31⟩ none .fredAPI (fun _ => .exn)
        ⟨fun n => n, fun st => (0, st + 1)⟩ 0).fetchedSeries = [] ∧
    (runApp ⟨2020, 1, 1⟩ ⟨2020, 3, 31⟩ none .fredAPI (fun _ => .exn)
        ⟨fun n => n, fun st => (0, st + 1)⟩ 0).sampleCalled = true ∧
    (runApp ⟨2020, 1, 1⟩ ⟨2020, 3, 31⟩ none .fredAPI (fun _ => .exn)
        ⟨fun n => n, fun st => (0, st + 1)⟩ 0).data =
      create_sample_data ⟨fun n => n, fun st => (0, st + 1)⟩ 0 ⟨2020, 1, 1⟩ ⟨2020, 3, 31⟩ :=
  (remote_mode_key_policy ⟨2020, 1, 1⟩ ⟨2020, 3, 31⟩ none (fun _ => .exn)
      ⟨fun n => n, fun st => (0, st + 1)⟩ 0 (by decide)).1 rfl

theorem empty_table_no_render (s e : Date) (key : Option String) (src : DataSource)
    (http : String → HttpEnv) (impl : RNGImpl) (st : Nat)
    (hrange : Date.le s e = true) :
    ((runApp s e key src http impl st).data.isEmpty = true →
      (runApp s e key src http impl st).noDataWarning = true ∧
      (runApp s e key src http impl st).chartRendered = false ∧
      (runApp s e key src http impl st).recentTableRendered = false ∧
      (runApp s e key src http impl st).statsRendered = false) ∧
    ((runApp s e key src http impl st).chartRendered = true →
      (runApp s e key src http impl st).data.isEmpty = false) ∧
    ((runApp s e key src http impl st).statsRendered = true →
      (runApp s e key src http impl st).data.isEmpty = false) := by
  have hform : ∃ d w f sc, runApp s e key src http impl st = displayData d w f sc := by
    cases src with
    | fredAPI =>
      cases hk : keyTruthy key with
      | false =>
        exact ⟨create_sample_data impl st s e, true, [], true,
          by simp only [runApp, hrange, if_true, hk, Bool.false_eq_true, if_false]⟩
      | true =>
        exact ⟨(if ((SERIES_IDS.map (fun p => (p.1, fetch_fred_data_api (http p.2)))).filter
              (fun p => !p.2.isEmpty)).isEmpty then DataFrame.emptyFrame
            else mergeSeries ((SERIES_IDS.map
              (fun p => (p.1, fetch_fred_data_api (http p.2)))).filter
                (fun p => !p.2.isEmpty))), false, SERIES_IDS.map Prod.snd, false,
          by simp only [runApp, hrange, if_true, hk, if_true]⟩
    | simulated =>
      exact ⟨create_sample_data impl st s e, false, [], true,
        by simp only [runApp, hrange, if_true]⟩
  obtain ⟨d, w, f, sc, hEq⟩ := hform
  rw [hEq]
  simp only [displayData_data, displayData_noDataWarning, displayData_chartRendered,
    displayData_recentTableRendered, displayData_statsRendered]
  cases hemp : d.isEmpty <;> simp

theorem empty_table_no_render_witness :
    (runApp ⟨2020, 1, 1⟩ ⟨2020, 1, 1⟩ none .simulated (fun _ => .exn)
        ⟨fun n => n, fun st => (0, st + 1)⟩ 0).noDataWarning = true ∧
    (runApp ⟨2020, 1, 1⟩ ⟨2020, 1, 1⟩ none .simulated (fun _ => .exn)
        ⟨fun n => n, fun st => (0, st + 1)⟩ 0).chartRendered = false ∧
    (runApp ⟨2020, 1, 1⟩ ⟨2020, 1, 1⟩ none .simulated (fun _ => .exn)
        ⟨fun n => n, fun st => (0, st + 1)⟩ 0).recentTableRendered = false ∧
    (runApp ⟨2020, 1, 1⟩ ⟨2020, 1, 1⟩ none .simulated (fun _ => .exn)
        ⟨fun n => n, fun st => (0, st + 1)⟩ 0).statsRendered = false :=
  (empty_table_no_render ⟨2020, 1, 1⟩ ⟨2020, 1, 1⟩ none .simulated (fun _ => .exn)
      ⟨fun n => n, fun st => (0, st + 1)⟩ 0 (by decide)).1
    (by with_unfolding_all decide)

theorem invalid_range_no_fetch (s e : Date) (key : Option String) (src : DataSource)
    (http : String → HttpEnv) (impl : RNGImpl) (st : Nat)
    (hrange : Date.le s e = false) :
    (runApp s e key src http impl st).invalidRangeError = true ∧
    (runApp s e key src http impl st).fetchedSeries = [] ∧
    (runApp s e key src http impl st).sampleCalled = false ∧
    (runApp s e key src http impl st).chartRendered = false := by
  simp [runApp, hrange]

theorem invalid_range_no_fetch_witness :
    (runApp ⟨2020, 3, 1⟩ ⟨2020, 1, 1⟩ none .simulated (fun _ => .exn)
        ⟨fun n => n, fun st => (0, st + 1)⟩ 0).invalidRangeError = true ∧
    (runApp ⟨2020, 3, 1⟩ ⟨2020, 1, 1⟩ none .simulated (fun _ => .exn)
        ⟨fun n => n, fun st => (0, st + 1)⟩ 0).fetchedSeries = [] ∧
    (runApp ⟨2020, 3, 1⟩ ⟨2020, 1, 1⟩ none .simulated (fun _ => .exn)
        ⟨fun n => n, fun st => (0, st + 1)⟩ 0).sampleCalled = false ∧
    (runApp ⟨2020, 3, 1⟩ ⟨2020, 1, 1⟩ none .simulated (fun _ => .exn)
        ⟨fun n => n, fun st => (0, st + 1)⟩ 0).chartRendered = false :=
  invalid_range_no_fetch ⟨2020, 3, 1⟩ ⟨2020, 1, 1⟩ none .simulated (fun _ => .exn)
    ⟨fun n => n, fun st => (0, st + 1)⟩ 0 (by decide)

end ChargeOff
